import Mathlib

/-!
Verification of the open62541 MQTT PubSub channel plugin
(`plugins/ua_network_pubsub_mqtt.c`) and of the nodestore-switch example
(`examples/server_nodestore_switch.c`).

The C code is shallowly embedded: each C function becomes a Lean function on
explicit state.  Calls into the MQTT adapter (`connectMqtt`, `disconnectMqtt`,
`subscribeMqtt`, `unSubscribeMqtt`, `publishMqtt`, `yieldMqtt`) are external to
the translated file; their status-code results are passed in as parameters, and
where a claim depends on their internal effect (which resources
`disconnectMqtt` releases) that effect is modelled from the specification, as
marked in the doc comments.  Heap allocation and deallocation are tracked by an
explicit record of liveness flags, one per heap object the plugin allocates.
-/

/-- OPC UA status codes (32-bit), as used by the plugin.  Values are the
numeric codes of the generated statuscodes header. -/
abbrev UA_StatusCode : Type := Nat

def UA_STATUSCODE_GOOD : UA_StatusCode := 0x00
def UA_STATUSCODE_BADINTERNALERROR : UA_StatusCode := 0x80020000
def UA_STATUSCODE_BADARGUMENTSMISSING : UA_StatusCode := 0x80760000
def UA_STATUSCODE_BADINVALIDARGUMENT : UA_StatusCode := 0x80AB0000
def UA_STATUSCODE_BADCONNECTIONCLOSED : UA_StatusCode := 0x80AC0000

/-- Bytes are modelled as naturals; only the QoS values 0, 1, 2 occur. -/
abbrev UA_Byte : Type := Nat

/-- The broker delivery-guarantee enumeration.  Its declaration (the generated
types header) is not part of the translated sources; the three members named by
the spec are `bestEffort`, `atLeastOnce` and `atMostOnce`, and the plugin's
`switch` carries a `default` branch for the remaining members of the published
OPC UA enumeration (`notSpecified`, `exactlyOnce`), which we therefore
include. -/
inductive UA_BrokerTransportQualityOfService where
  | notSpecified
  | bestEffort
  | atLeastOnce
  | atMostOnce
  | exactlyOnce
deriving DecidableEq

/-- `UA_uaQos_toMqttQos` (plugin lines 19-35): translates a delivery guarantee
into an MQTT QoS byte.  The C function writes through a pointer `*qos`; here it
takes the byte's current value and returns the status code paired with the
byte's new value.  The `default` branch of the `switch` leaves the byte
untouched, and the function returns `UA_STATUSCODE_GOOD` on every path. -/
def UA_uaQos_toMqttQos (uaQos : UA_BrokerTransportQualityOfService)
    (qos : UA_Byte) : UA_StatusCode × UA_Byte :=
  match uaQos with
  | .bestEffort => (UA_STATUSCODE_GOOD, 0)
  | .atLeastOnce => (UA_STATUSCODE_GOOD, 1)
  | .atMostOnce => (UA_STATUSCODE_GOOD, 2)
  | _ => (UA_STATUSCODE_GOOD, qos)

/-- `UA_BrokerWriterGroupTransportDataType`: the decoded broker writer-group
transport settings, of which the plugin reads `queueName` and
`requestedDeliveryGuarantee`. -/
structure UA_BrokerWriterGroupTransportDataType where
  queueName : String
  requestedDeliveryGuarantee : UA_BrokerTransportQualityOfService
deriving DecidableEq

/-- Encoding discriminant of a `UA_ExtensionObject`. -/
inductive UA_ExtensionObjectEncoding where
  | encodedNoBody
  | encodedByteString
  | encodedXml
  | decoded
  | decodedNoDelete
deriving DecidableEq

/-- Decoded content of an extension object.  The C code checks
`content.decoded.type->typeIndex == UA_TYPES_BROKERWRITERGROUPTRANSPORTDATATYPE`
and then casts `content.decoded.data`; the type-index test is represented by
which constructor the content carries. -/
inductive UA_DecodedContent where
  | brokerWriterGroup (b : UA_BrokerWriterGroupTransportDataType)
  | otherType
deriving DecidableEq

structure UA_ExtensionObject where
  encoding : UA_ExtensionObjectEncoding
  content : UA_DecodedContent
deriving DecidableEq

/-- The guard `transportSettings != NULL && transportSettings->encoding ==
UA_EXTENSIONOBJECT_DECODED && transportSettings->content.decoded.type->typeIndex
== UA_TYPES_BROKERWRITERGROUPTRANSPORTDATATYPE`, shared verbatim by `regist`,
`unregist` and `send`: the `Option` is the nullable pointer, and the result is
the casted `brokerTransportSettings` when the guard holds. -/
def brokerSettingsOf (transportSettings : Option UA_ExtensionObject) :
    Option UA_BrokerWriterGroupTransportDataType :=
  match transportSettings with
  | none => none
  | some t =>
    if t.encoding = UA_ExtensionObjectEncoding.decoded then
      match t.content with
      | .brokerWriterGroup b => some b
      | .otherType => none
    else none

/-- Channel states used by the plugin (the full `UA_PubSubChannelState`
declaration lives outside the translated sources; only these three members are
referenced). -/
inductive UA_PubSubChannelState where
  | rdy
  | error
  | closed
deriving DecidableEq

/-- `UA_PubSubChannelDataMQTT`, the MQTT-specific channel data (declared in the
adapter header, populated and read by the plugin).  Buffer pointers are
modelled by whether they are non-NULL; the client identifier is the string
value the stored pointer designates; `callback` is `none` for the NULL function
pointer and otherwise an opaque identifier of the stored function. -/
structure UA_PubSubChannelDataMQTT where
  address : String
  mqttSendBufferSize : Nat
  mqttRecvBufferSize : Nat
  mqttRecvBuffer : Bool
  mqttSendBuffer : Bool
  mqttClientId : String
  callback : Option Nat
deriving DecidableEq

/-- `UA_PubSubChannel`: the generic channel object; `handle` is the pointer to
the MQTT channel data, embedded by value. -/
structure UA_PubSubChannel where
  state : UA_PubSubChannelState
  handle : UA_PubSubChannelDataMQTT
deriving DecidableEq

/-- Liveness of each heap object the plugin allocates or acquires: the channel
data struct, the channel struct, the two message buffers, and the transport
connection.  `true` means the object is currently allocated/held. -/
structure Heap where
  channelDataLive : Bool
  channelLive : Bool
  recvBufferLive : Bool
  sendBufferLive : Bool
  connectionLive : Bool
deriving DecidableEq

def Heap.empty : Heap :=
  { channelDataLive := false, channelLive := false, recvBufferLive := false,
    sendBufferLive := false, connectionLive := false }

/-- Result of `UA_PubSubChannelMQTT_send`: the returned status code, the
channel as left by the call, and the publish actually handed to the transport
(`some (topic, qos)`), if any. -/
structure SendResult where
  status : UA_StatusCode
  channel : UA_PubSubChannel
  published : Option (String × UA_Byte)
deriving DecidableEq

/-- `UA_PubSubChannelMQTT_send` (plugin lines 197-227).  `publishResult` is the
status returned by the external `publishMqtt` call.  The C local `ret` starts
as `UA_STATUSCODE_GOOD`; when the transport-settings guard fails the function
only logs and returns `ret` unchanged, and `if(ret)` after the publish sets the
channel state to error exactly when the publish status is nonzero. -/
def UA_PubSubChannelMQTT_send (channel : UA_PubSubChannel)
    (transportSettings : Option UA_ExtensionObject)
    (publishResult : UA_StatusCode) : SendResult :=
  if channel.state ≠ UA_PubSubChannelState.rdy then
    { status := UA_STATUSCODE_BADCONNECTIONCLOSED, channel := channel,
      published := none }
  else
    match brokerSettingsOf transportSettings with
    | some brokerTransportSettings =>
      let qos := (UA_uaQos_toMqttQos
        brokerTransportSettings.requestedDeliveryGuarantee 0).2
      let topic := brokerTransportSettings.queueName
      let ret := publishResult
      if ret ≠ UA_STATUSCODE_GOOD then
        { status := ret,
          channel := { channel with state := UA_PubSubChannelState.error },
          published := some (topic, qos) }
      else
        { status := ret, channel := channel, published := some (topic, qos) }
    | none =>
      { status := UA_STATUSCODE_GOOD, channel := channel, published := none }

/-- Result of `UA_PubSubChannelMQTT_regist`: the returned status code, the
channel as left by the call, and the subscribe handed to the transport
(`some (topic, qos)`), if any. -/
structure RegistResult where
  status : UA_StatusCode
  channel : UA_PubSubChannel
  subscribed : Option (String × UA_Byte)
deriving DecidableEq

/-- `UA_PubSubChannelMQTT_regist` (plugin lines 141-164).  `subscribeResult` is
the status returned by the external `subscribeMqtt` call.  The callback is
stored into the channel data before the transport-settings guard is
evaluated. -/
def UA_PubSubChannelMQTT_regist (channel : UA_PubSubChannel)
    (transportSettings : Option UA_ExtensionObject) (callback : Option Nat)
    (subscribeResult : UA_StatusCode) : RegistResult :=
  if channel.state ≠ UA_PubSubChannelState.rdy then
    { status := UA_STATUSCODE_BADCONNECTIONCLOSED, channel := channel,
      subscribed := none }
  else
    let channel :=
      { channel with handle := { channel.handle with callback := callback } }
    match brokerSettingsOf transportSettings with
    | some brokerTransportSettings =>
      let qos := (UA_uaQos_toMqttQos
        brokerTransportSettings.requestedDeliveryGuarantee 0).2
      { status := subscribeResult, channel := channel,
        subscribed := some (brokerTransportSettings.queueName, qos) }
    | none =>
      { status := UA_STATUSCODE_BADARGUMENTSMISSING, channel := channel,
        subscribed := none }

/-- `UA_PubSubChannelMQTT_unregist` (plugin lines 171-190).  `unsubscribeResult`
is the status returned by the external `unSubscribeMqtt` call; the channel
itself is not modified. -/
def UA_PubSubChannelMQTT_unregist (channel : UA_PubSubChannel)
    (transportSettings : Option UA_ExtensionObject)
    (unsubscribeResult : UA_StatusCode) : UA_StatusCode × UA_PubSubChannel :=
  if channel.state ≠ UA_PubSubChannelState.rdy then
    (UA_STATUSCODE_BADCONNECTIONCLOSED, channel)
  else
    match brokerSettingsOf transportSettings with
    | some _ => (unsubscribeResult, channel)
    | none => (UA_STATUSCODE_BADARGUMENTSMISSING, channel)

/-- `UA_PubSubChannelMQTT_yield` (plugin lines 252-271).  `yieldResult` is the
status returned by the external `yieldMqtt` call.  The NULL-channel guard of
the C function is outside this embedding (the channel argument is a value);
an error-state channel fails fast, and a failing pump sets the error state. -/
def UA_PubSubChannelMQTT_yield (channel : UA_PubSubChannel)
    (yieldResult : UA_StatusCode) : UA_StatusCode × UA_PubSubChannel :=
  if channel.state = UA_PubSubChannelState.error then
    (UA_STATUSCODE_BADINTERNALERROR, channel)
  else if yieldResult ≠ UA_STATUSCODE_GOOD then
    (yieldResult, { channel with state := UA_PubSubChannelState.error })
  else
    (yieldResult, channel)

/-- Modelled from the spec: the effect of `disconnectMqtt` on the heap.  The
adapter implementing `disconnectMqtt` is not among the translated sources;
per the spec, `close` "releases the connection and both buffers", and the
buffer release happens inside `disconnectMqtt` (the plugin's own `close` body
frees only the channel data and the channel object). -/
def disconnectMqtt_effect (h : Heap) : Heap :=
  { h with connectionLive := false, recvBufferLive := false,
           sendBufferLive := false }

/-- `UA_PubSubChannelMQTT_close` (plugin lines 234-245).  Returns the status
code, the heap after the call, and the channel object afterwards — `none`
meaning the object was freed (`UA_free(channel)`).  A channel already in the
closed state is returned untouched. -/
def UA_PubSubChannelMQTT_close (channel : UA_PubSubChannel) (h : Heap) :
    UA_StatusCode × Heap × Option UA_PubSubChannel :=
  if channel.state = UA_PubSubChannelState.closed then
    (UA_STATUSCODE_GOOD, h, some channel)
  else
    let h := disconnectMqtt_effect h
    let h := { h with channelDataLive := false, channelLive := false }
    (UA_STATUSCODE_GOOD, h, none)

/-- A typed variant value, as carried in a `UA_Variant`: the C code inspects
variants with `UA_Variant_hasScalarType` against `UA_TYPES_UINT32`,
`UA_TYPES_STRING` or `UA_TYPES_NETWORKADDRESSURLDATATYPE`, represented here by
which constructor holds the data. -/
inductive UAVariant where
  | uint32 (v : Nat)
  | str (s : String)
  | networkAddressUrl (url : String)
  | otherType
deriving DecidableEq

/-- One `UA_KeyValuePair` of the connection properties: the qualified name's
name part, and the variant value. -/
structure UA_KeyValuePair where
  key : String
  value : UAVariant
deriving DecidableEq

/-- `UA_PubSubConnectionConfig`, restricted to the fields the plugin reads:
the address variant and the ordered connection-property list. -/
structure UA_PubSubConnectionConfig where
  address : UAVariant
  connectionProperties : List UA_KeyValuePair
deriving DecidableEq

/-- One iteration of the parameter loop of `UA_PubSubChannelMQTT_open` (plugin
lines 67-83): a property whose key matches and whose value has the expected
scalar type overwrites the corresponding field; a matching key with a mistyped
value changes nothing; an unknown key is logged and ignored. -/
def applyConnectionProperty (channelDataMQTT : UA_PubSubChannelDataMQTT)
    (p : UA_KeyValuePair) : UA_PubSubChannelDataMQTT :=
  if p.key = "sendBufferSize" then
    match p.value with
    | .uint32 v => { channelDataMQTT with mqttSendBufferSize := v }
    | _ => channelDataMQTT
  else if p.key = "recvBufferSize" then
    match p.value with
    | .uint32 v => { channelDataMQTT with mqttRecvBufferSize := v }
    | _ => channelDataMQTT
  else if p.key = "mqttClientId" then
    match p.value with
    | .str s => { channelDataMQTT with mqttClientId := s }
    | _ => channelDataMQTT
  else
    channelDataMQTT

/-- The default values `open` installs before the property loop (plugin lines
62-64): buffer sizes 2000 each, client identifier `"open62541_pub"`, every
pointer NULL. -/
def mqttDefaults (url : String) : UA_PubSubChannelDataMQTT :=
  { address := url, mqttSendBufferSize := 2000, mqttRecvBufferSize := 2000,
    mqttRecvBuffer := false, mqttSendBuffer := false,
    mqttClientId := "open62541_pub", callback := none }

/-- Outcomes of the calls `UA_PubSubChannelMQTT_open` makes that are decided
outside the plugin: whether each `UA_calloc` succeeds, and the status code of
the external `connectMqtt` call. -/
structure OpenEnv where
  callocChannelData : Bool
  callocChannel : Bool
  callocRecvBuffer : Bool
  callocSendBuffer : Bool
  connectResult : UA_StatusCode
deriving DecidableEq

/-- What `UA_PubSubChannelMQTT_open` leaves behind: the returned channel
(`none` on error, as the C function returns NULL) and the heap at return. -/
structure OpenOutcome where
  channel : Option UA_PubSubChannel
  heap : Heap
deriving DecidableEq

/-- `UA_PubSubChannelMQTT_open` (plugin lines 43-134), translated branch by
branch: address validation, `calloc` of the channel data, the default values
`{address, 2000, 2000, NULL, NULL, &mqttClientId("open62541_pub"), ...}`, the
property loop, `calloc` of the channel object, conditional allocation of the
receive and send buffers (only for a nonzero size), the `connectMqtt` call,
and the rollback sequence of each failure path. -/
def UA_PubSubChannelMQTT_open (connectionConfig : UA_PubSubConnectionConfig)
    (env : OpenEnv) : OpenOutcome :=
  match connectionConfig.address with
  | .networkAddressUrl url =>
    if ¬ env.callocChannelData then
      { channel := none, heap := Heap.empty }
    else
      let channelDataMQTT := connectionConfig.connectionProperties.foldl
        applyConnectionProperty (mqttDefaults url)
      if ¬ env.callocChannel then
        { channel := none, heap := Heap.empty }
      else if channelDataMQTT.mqttRecvBufferSize > 0 ∧
          ¬ env.callocRecvBuffer then
        { channel := none, heap := Heap.empty }
      else
        let channelDataMQTT :=
          if channelDataMQTT.mqttRecvBufferSize > 0 then
            { channelDataMQTT with mqttRecvBuffer := true }
          else channelDataMQTT
        if channelDataMQTT.mqttSendBufferSize > 0 ∧
            ¬ env.callocSendBuffer then
          { channel := none, heap := Heap.empty }
        else
          let channelDataMQTT :=
            if channelDataMQTT.mqttSendBufferSize > 0 then
              { channelDataMQTT with mqttSendBuffer := true }
            else channelDataMQTT
          let heapBeforeConnect : Heap :=
            { channelDataLive := true, channelLive := true,
              recvBufferLive := channelDataMQTT.mqttRecvBuffer,
              sendBufferLive := channelDataMQTT.mqttSendBuffer,
              connectionLive := true }
          if env.connectResult ≠ UA_STATUSCODE_GOOD then
            let h := disconnectMqtt_effect heapBeforeConnect
            let h := { h with sendBufferLive := false,
                              recvBufferLive := false,
                              channelDataLive := false, channelLive := false }
            { channel := none, heap := h }
          else
            { channel := some { state := UA_PubSubChannelState.rdy,
                                handle := channelDataMQTT },
              heap := heapBeforeConnect }
  | _ => { channel := none, heap := Heap.empty }

/-- A heap on which every object a ready channel owns is live; used when a
channel operation is run without tracking allocations. -/
def Heap.full : Heap :=
  { channelDataLive := true, channelLive := true, recvBufferLive := true,
    sendBufferLive := true, connectionLive := true }

/-- One operation a caller can drive against a channel, bundled with the
status code the external transport call involved would return (the oracle for
the adapter functions, which are outside the translated sources). -/
inductive ChannelOp where
  | regist (transportSettings : Option UA_ExtensionObject)
      (callback : Option Nat) (subscribeResult : UA_StatusCode)
  | unregist (transportSettings : Option UA_ExtensionObject)
      (unsubscribeResult : UA_StatusCode)
  | send (transportSettings : Option UA_ExtensionObject)
      (publishResult : UA_StatusCode)
  | yield (yieldResult : UA_StatusCode)
  | close
deriving DecidableEq

/-- Dispatch of one `ChannelOp` to the corresponding plugin function: the
returned status and the channel afterwards, `none` when the operation freed
the channel object (`close` on a non-closed channel). -/
def channelStep (channel : UA_PubSubChannel) (op : ChannelOp) :
    UA_StatusCode × Option UA_PubSubChannel :=
  match op with
  | .regist transportSettings callback subscribeResult =>
    let r := UA_PubSubChannelMQTT_regist channel transportSettings callback
      subscribeResult
    (r.status, some r.channel)
  | .unregist transportSettings unsubscribeResult =>
    let r := UA_PubSubChannelMQTT_unregist channel transportSettings
      unsubscribeResult
    (r.1, some r.2)
  | .send transportSettings publishResult =>
    let r := UA_PubSubChannelMQTT_send channel transportSettings publishResult
    (r.status, some r.channel)
  | .yield yieldResult =>
    let r := UA_PubSubChannelMQTT_yield channel yieldResult
    (r.1, some r.2)
  | .close =>
    let r := UA_PubSubChannelMQTT_close channel Heap.full
    (r.1, r.2.2)

/-- Runs a sequence of operations; stops (with `none`) once the channel object
has been freed, since no further call can legally be made on it. -/
def runChannel (channel : UA_PubSubChannel) (ops : List ChannelOp) :
    Option UA_PubSubChannel :=
  match ops with
  | [] => some channel
  | op :: rest =>
    match (channelStep channel op).2 with
    | none => none
    | some c2 => runChannel c2 rest

/-- The operations the spec calls a transport-level failure report: a `send`
whose settings pass the guard and whose publish returns a nonzero status, or a
`yield` whose pump returns a nonzero status. -/
def reportsTransportFailure : ChannelOp → Prop
  | .send transportSettings publishResult =>
    brokerSettingsOf transportSettings ≠ none ∧
      publishResult ≠ UA_STATUSCODE_GOOD
  | .yield yieldResult => yieldResult ≠ UA_STATUSCODE_GOOD
  | _ => False

instance (op : ChannelOp) : Decidable (reportsTransportFailure op) := by
  cases op <;> simp only [reportsTransportFailure] <;> infer_instance

/-- Modelled from the spec: the nodestore switch (its implementation,
`UA_Nodestore_Switch_setNodestore` / `UA_Nodestore_Switch_getNodestore`, is
not among the translated sources; only the example driving it is).  Per the
spec, the switch is "a namespace-indexed table of backend references with a
default fallback": `linkedStores` maps a namespace index to the handle of its
linked backend, with at most one entry per index, and `defaultStore` is the
distinguished default entry.  Backend handles are opaque identifiers. -/
structure UA_Nodestore_Switch where
  defaultStore : Nat
  linkedStores : List (Nat × Nat)
deriving DecidableEq

/-- First-match association lookup over the link table. -/
def assocLookup (l : List (Nat × Nat)) (k : Nat) : Option Nat :=
  match l with
  | [] => none
  | (k2, v) :: rest => if k2 = k then some v else assocLookup rest k

/-- Modelled from the spec: `setBackend(index, handleOrNone)` "installs,
replaces, or removes the mapping for `index`.  Replacing or removing never
destroys the previous backend ...  Never fails (no allocation)."  Only the
link table changes; nothing else is touched. -/
def UA_Nodestore_Switch_setNodestore (sw : UA_Nodestore_Switch) (ns : Nat)
    (store : Option Nat) : UA_Nodestore_Switch :=
  let cleared := sw.linkedStores.filter (fun p => p.1 ≠ ns)
  match store with
  | none => { sw with linkedStores := cleared }
  | some h => { sw with linkedStores := (ns, h) :: cleared }

/-- Modelled from the spec: `getBackend(index)` "returns the mapped backend,
or the default backend if none is mapped.  Never fails." -/
def UA_Nodestore_Switch_getNodestore (sw : UA_Nodestore_Switch) (ns : Nat) :
    Nat :=
  (assocLookup sw.linkedStores ns).getD sw.defaultStore

/-- The world the nodestore-switch example lives in: the switch plus the heap
of live backends, each handle mapped to the list of nodes it stores (the
observable behaviour of its `iterate` capability). -/
structure SwitchWorld where
  switch : UA_Nodestore_Switch
  stores : List (Nat × List String)
deriving DecidableEq

/-- Modelled from the spec: relinking through the switch acts on the link
table alone; the backends themselves ("exclusively held by [their] creator;
the registry holds only a non-owning reference while linked") are not
created, destroyed or modified by it. -/
def worldSetNodestore (w : SwitchWorld) (ns : Nat) (store : Option Nat) :
    SwitchWorld :=
  { w with switch := UA_Nodestore_Switch_setNodestore w.switch ns store }

/-- Lookup of a backend's node list in the backend heap (first match). -/
def storeNodes (stores : List (Nat × List String)) (h : Nat) :
    Option (List String) :=
  match stores with
  | [] => none
  | (h2, nodes) :: rest => if h2 = h then some nodes else storeNodes rest h

/-- `iterate` over one backend, as the example does after unlinking: visits
every node the backend stores; a freed backend has nothing to visit. -/
def iterateNodes (w : SwitchWorld) (h : Nat) : List String :=
  (storeNodes w.stores h).getD []

/-! Concrete sample values used by witnesses and counterexamples. -/

def sampleChannelData : UA_PubSubChannelDataMQTT :=
  { address := "opc.mqtt://localhost:1883", mqttSendBufferSize := 2000,
    mqttRecvBufferSize := 2000, mqttRecvBuffer := true,
    mqttSendBuffer := true, mqttClientId := "open62541_pub",
    callback := none }

def readyChannel : UA_PubSubChannel :=
  { state := UA_PubSubChannelState.rdy, handle := sampleChannelData }

def errorChannel : UA_PubSubChannel :=
  { state := UA_PubSubChannelState.error, handle := sampleChannelData }

def closedChannel : UA_PubSubChannel :=
  { state := UA_PubSubChannelState.closed, handle := sampleChannelData }

def sampleBrokerSettings : UA_BrokerWriterGroupTransportDataType :=
  { queueName := "customTopic",
    requestedDeliveryGuarantee := UA_BrokerTransportQualityOfService.atLeastOnce }

def sampleTransportSettings : UA_ExtensionObject :=
  { encoding := UA_ExtensionObjectEncoding.decoded,
    content := UA_DecodedContent.brokerWriterGroup sampleBrokerSettings }

def unknownQosBrokerSettings : UA_BrokerWriterGroupTransportDataType :=
  { queueName := "customTopic",
    requestedDeliveryGuarantee := UA_BrokerTransportQualityOfService.notSpecified }

def unknownQosTransportSettings : UA_ExtensionObject :=
  { encoding := UA_ExtensionObjectEncoding.decoded,
    content := UA_DecodedContent.brokerWriterGroup unknownQosBrokerSettings }

def sampleConfig : UA_PubSubConnectionConfig :=
  { address := UAVariant.networkAddressUrl "opc.mqtt://localhost:1883",
    connectionProperties := [] }

def envAllGood : OpenEnv :=
  { callocChannelData := true, callocChannel := true, callocRecvBuffer := true,
    callocSendBuffer := true, connectResult := UA_STATUSCODE_GOOD }

def envConnectFails : OpenEnv :=
  { callocChannelData := true, callocChannel := true, callocRecvBuffer := true,
    callocSendBuffer := true, connectResult := UA_STATUSCODE_BADINTERNALERROR }

/-! Theorems settling the claims. -/

/-- C5.  The guarantee-to-QoS translation maps the three named guarantee
values exactly as the spec states: BestEffort to QoS 0, AtLeastOnce to QoS 1,
AtMostOnce to QoS 2 (each returning the good status code), whatever value the
output byte held before the call. -/
theorem uaQos_toMqttQos_maps_three_guarantees (qos : UA_Byte) :
    UA_uaQos_toMqttQos UA_BrokerTransportQualityOfService.bestEffort qos =
      (UA_STATUSCODE_GOOD, 0) ∧
    UA_uaQos_toMqttQos UA_BrokerTransportQualityOfService.atLeastOnce qos =
      (UA_STATUSCODE_GOOD, 1) ∧
    UA_uaQos_toMqttQos UA_BrokerTransportQualityOfService.atMostOnce qos =
      (UA_STATUSCODE_GOOD, 2) :=
  ⟨rfl, rfl, rfl⟩

/-- C9.  `regist` stores the new callback into the channel data before the
transport-settings guard: on a Ready channel whose settings fail the guard it
returns `BADARGUMENTSMISSING`, yet the stored callback is already the one
passed to the failing call, and no subscribe reaches the transport. -/
theorem regist_overwrites_callback_before_validation
    (channel : UA_PubSubChannel) (transportSettings : Option UA_ExtensionObject)
    (callback : Option Nat) (subscribeResult : UA_StatusCode)
    (hrdy : channel.state = UA_PubSubChannelState.rdy)
    (hmiss : brokerSettingsOf transportSettings = none) :
    (UA_PubSubChannelMQTT_regist channel transportSettings callback
        subscribeResult).status = UA_STATUSCODE_BADARGUMENTSMISSING ∧
    (UA_PubSubChannelMQTT_regist channel transportSettings callback
        subscribeResult).channel.handle.callback = callback ∧
    (UA_PubSubChannelMQTT_regist channel transportSettings callback
        subscribeResult).subscribed = none := by
  unfold UA_PubSubChannelMQTT_regist
  rw [if_neg (by simp [hrdy]), hmiss]
  exact ⟨rfl, rfl, rfl⟩

theorem regist_overwrites_callback_before_validation_witness :
    (UA_PubSubChannelMQTT_regist readyChannel none (some 7)
        UA_STATUSCODE_GOOD).status = UA_STATUSCODE_BADARGUMENTSMISSING ∧
    (UA_PubSubChannelMQTT_regist readyChannel none (some 7)
        UA_STATUSCODE_GOOD).channel.handle.callback = some 7 ∧
    (UA_PubSubChannelMQTT_regist readyChannel none (some 7)
        UA_STATUSCODE_GOOD).subscribed = none :=
  regist_overwrites_callback_before_validation readyChannel none (some 7)
    UA_STATUSCODE_GOOD (by decide) (by decide)

/-- C10.  For a delivery-guarantee value other than the three named ones, the
translation hits the `default` branch: it leaves the output byte at the value
the caller initialized and still returns the good status.  Since `send` and
`regist` both initialize the byte to 0 before translating, they proceed with
transport QoS level 0 for such a value and return the transport call's own
status rather than failing. -/
theorem unknown_guarantee_uses_qos_zero
    (g : UA_BrokerTransportQualityOfService)
    (hb : g ≠ UA_BrokerTransportQualityOfService.bestEffort)
    (hl : g ≠ UA_BrokerTransportQualityOfService.atLeastOnce)
    (hm : g ≠ UA_BrokerTransportQualityOfService.atMostOnce) :
    (∀ qos : UA_Byte, UA_uaQos_toMqttQos g qos = (UA_STATUSCODE_GOOD, qos)) ∧
    (∀ (channel : UA_PubSubChannel)
        (transportSettings : Option UA_ExtensionObject)
        (b : UA_BrokerWriterGroupTransportDataType)
        (publishResult : UA_StatusCode),
      channel.state = UA_PubSubChannelState.rdy →
      brokerSettingsOf transportSettings = some b →
      b.requestedDeliveryGuarantee = g →
      (UA_PubSubChannelMQTT_send channel transportSettings
          publishResult).published = some (b.queueName, 0) ∧
      (UA_PubSubChannelMQTT_send channel transportSettings
          publishResult).status = publishResult) ∧
    (∀ (channel : UA_PubSubChannel)
        (transportSettings : Option UA_ExtensionObject)
        (b : UA_BrokerWriterGroupTransportDataType)
        (callback : Option Nat) (subscribeResult : UA_StatusCode),
      channel.state = UA_PubSubChannelState.rdy →
      brokerSettingsOf transportSettings = some b →
      b.requestedDeliveryGuarantee = g →
      (UA_PubSubChannelMQTT_regist channel transportSettings callback
          subscribeResult).subscribed = some (b.queueName, 0) ∧
      (UA_PubSubChannelMQTT_regist channel transportSettings callback
          subscribeResult).status = subscribeResult) := by
  have hq : ∀ qos : UA_Byte,
      UA_uaQos_toMqttQos g qos = (UA_STATUSCODE_GOOD, qos) := by
    intro qos
    cases g with
    | bestEffort => exact absurd rfl hb
    | atLeastOnce => exact absurd rfl hl
    | atMostOnce => exact absurd rfl hm
    | notSpecified => rfl
    | exactlyOnce => rfl
  refine ⟨hq, ?_, ?_⟩
  · intro channel transportSettings b publishResult hrdy hbs hg
    unfold UA_PubSubChannelMQTT_send
    rw [if_neg (by simp [hrdy])]
    by_cases hp : publishResult ≠ UA_STATUSCODE_GOOD
    · simp [hbs, hg, hq 0, hp]
    · simp only [ne_eq, not_not] at hp
      simp [hbs, hg, hq 0, hp]
  · intro channel transportSettings b callback subscribeResult hrdy hbs hg
    unfold UA_PubSubChannelMQTT_regist
    rw [if_neg (by simp [hrdy])]
    simp [hbs, hg, hq 0]

theorem unknown_guarantee_uses_qos_zero_witness :
    (∀ qos : UA_Byte,
      UA_uaQos_toMqttQos UA_BrokerTransportQualityOfService.notSpecified qos =
        (UA_STATUSCODE_GOOD, qos)) ∧
    ((UA_PubSubChannelMQTT_send readyChannel (some unknownQosTransportSettings)
        UA_STATUSCODE_GOOD).published = some ("customTopic", 0) ∧
      (UA_PubSubChannelMQTT_send readyChannel
          (some unknownQosTransportSettings)
          UA_STATUSCODE_GOOD).status = UA_STATUSCODE_GOOD) ∧
    ((UA_PubSubChannelMQTT_regist readyChannel
        (some unknownQosTransportSettings) (some 7)
        UA_STATUSCODE_GOOD).subscribed = some ("customTopic", 0) ∧
      (UA_PubSubChannelMQTT_regist readyChannel
          (some unknownQosTransportSettings) (some 7)
          UA_STATUSCODE_GOOD).status = UA_STATUSCODE_GOOD) := by
  have h := unknown_guarantee_uses_qos_zero
    UA_BrokerTransportQualityOfService.notSpecified
    (by decide) (by decide) (by decide)
  exact ⟨h.1,
    h.2.1 readyChannel (some unknownQosTransportSettings)
      unknownQosBrokerSettings UA_STATUSCODE_GOOD (by decide) (by decide) rfl,
    h.2.2 readyChannel (some unknownQosTransportSettings)
      unknownQosBrokerSettings (some 7) UA_STATUSCODE_GOOD (by decide)
      (by decide) rfl⟩

/-- C1 counterexample.  On a Ready channel, `send` with an absent
`transportSettings` returns `UA_STATUSCODE_GOOD` — not
`UA_STATUSCODE_BADARGUMENTSMISSING` as the claim states: the C local `ret` is
initialized to the good status and the guard's else-branch only logs before
returning it. -/
theorem send_missing_settings_returns_good :
    (UA_PubSubChannelMQTT_send readyChannel none
        UA_STATUSCODE_GOOD).status = UA_STATUSCODE_GOOD ∧
    UA_STATUSCODE_GOOD ≠ UA_STATUSCODE_BADARGUMENTSMISSING := by
  exact ⟨by decide, by decide⟩

/-- C1 (amended).  On a Ready channel, `send` with transport settings that are
absent, not decoded, or not of the broker writer-group type returns the good
status code (not `MissingArguments`), leaves the channel unchanged — still
Ready — and hands no publish to the transport. -/
theorem send_missing_settings_no_state_change_no_publish
    (channel : UA_PubSubChannel)
    (transportSettings : Option UA_ExtensionObject)
    (publishResult : UA_StatusCode)
    (hrdy : channel.state = UA_PubSubChannelState.rdy)
    (hmiss : brokerSettingsOf transportSettings = none) :
    UA_PubSubChannelMQTT_send channel transportSettings publishResult =
      { status := UA_STATUSCODE_GOOD, channel := channel,
        published := none } := by
  unfold UA_PubSubChannelMQTT_send
  rw [if_neg (by simp [hrdy]), hmiss]

theorem send_missing_settings_no_state_change_no_publish_witness :
    UA_PubSubChannelMQTT_send readyChannel
        (some { encoding := UA_ExtensionObjectEncoding.encodedXml,
                content := UA_DecodedContent.brokerWriterGroup
                  sampleBrokerSettings })
        UA_STATUSCODE_GOOD =
      { status := UA_STATUSCODE_GOOD, channel := readyChannel,
        published := none } :=
  send_missing_settings_no_state_change_no_publish readyChannel
    (some { encoding := UA_ExtensionObjectEncoding.encodedXml,
            content := UA_DecodedContent.brokerWriterGroup
              sampleBrokerSettings })
    UA_STATUSCODE_GOOD (by decide) (by decide)



/-- C2.  `close` on a channel in the Ready or the Error state returns the good
status; afterwards the transport connection is released and neither the
receive buffer nor the send buffer is live (the buffer release happens inside
`disconnectMqtt`, modelled from the spec), and the channel data and channel
object are freed as well. -/
theorem close_releases_connection_and_buffers (channel : UA_PubSubChannel)
    (h : Heap)
    (hstate : channel.state = UA_PubSubChannelState.rdy ∨
      channel.state = UA_PubSubChannelState.error) :
    (UA_PubSubChannelMQTT_close channel h).1 = UA_STATUSCODE_GOOD ∧
    (UA_PubSubChannelMQTT_close channel h).2.1 = Heap.empty := by
  have hnc : channel.state ≠ UA_PubSubChannelState.closed := by
    rcases hstate with h1 | h1 <;> rw [h1] <;> decide
  unfold UA_PubSubChannelMQTT_close
  rw [if_neg hnc]
  exact ⟨rfl, rfl⟩

theorem close_releases_connection_and_buffers_witness :
    ((UA_PubSubChannelMQTT_close readyChannel Heap.full).1 =
        UA_STATUSCODE_GOOD ∧
      (UA_PubSubChannelMQTT_close readyChannel Heap.full).2.1 = Heap.empty) ∧
    ((UA_PubSubChannelMQTT_close errorChannel Heap.full).1 =
        UA_STATUSCODE_GOOD ∧
      (UA_PubSubChannelMQTT_close errorChannel Heap.full).2.1 = Heap.empty) :=
  ⟨close_releases_connection_and_buffers readyChannel Heap.full
      (Or.inl (by decide)),
    close_releases_connection_and_buffers errorChannel Heap.full
      (Or.inr (by decide))⟩

/-- C3 counterexample.  A first `close` on a Ready channel does not leave the
channel in the Closed state: it frees the channel object outright (the
returned channel is `none`, and `close` assigns no state before
`UA_free(channel)`), so no channel in the Closed state exists afterwards for
the claimed second no-op `close` to be invoked on. -/
theorem close_ready_frees_channel_not_closed :
    (UA_PubSubChannelMQTT_close readyChannel Heap.full).1 =
      UA_STATUSCODE_GOOD ∧
    (UA_PubSubChannelMQTT_close readyChannel Heap.full).2.2 = none := by
  exact ⟨by decide, by decide⟩

/-- C3 (amended).  `close` on a channel not in the Closed state returns
success and deallocates the channel object entirely (it never assigns the
Closed state), so no second `close` can be made on it; `close` on a channel
already in the Closed state — reachable only if some other code set that
state — is a no-op returning success. -/
theorem close_frees_or_is_noop (channel : UA_PubSubChannel) (h : Heap) :
    (channel.state ≠ UA_PubSubChannelState.closed →
      UA_PubSubChannelMQTT_close channel h =
        (UA_STATUSCODE_GOOD, Heap.empty, none)) ∧
    (channel.state = UA_PubSubChannelState.closed →
      UA_PubSubChannelMQTT_close channel h =
        (UA_STATUSCODE_GOOD, h, some channel)) := by
  constructor
  · intro hnc
    unfold UA_PubSubChannelMQTT_close
    rw [if_neg hnc]
    rfl
  · intro hc
    unfold UA_PubSubChannelMQTT_close
    rw [if_pos hc]

theorem close_frees_or_is_noop_witness :
    (UA_PubSubChannelMQTT_close readyChannel Heap.full =
      (UA_STATUSCODE_GOOD, Heap.empty, none)) ∧
    (UA_PubSubChannelMQTT_close closedChannel Heap.full =
      (UA_STATUSCODE_GOOD, Heap.full, some closedChannel)) :=
  ⟨(close_frees_or_is_noop readyChannel Heap.full).1 (by decide),
    (close_frees_or_is_noop closedChannel Heap.full).2 (by decide)⟩

/-- `regist` never changes the channel state: both guard branches return the
channel with at most the callback field replaced. -/
theorem regist_preserves_state (channel : UA_PubSubChannel)
    (transportSettings : Option UA_ExtensionObject) (callback : Option Nat)
    (subscribeResult : UA_StatusCode) :
    (UA_PubSubChannelMQTT_regist channel transportSettings callback
      subscribeResult).channel.state = channel.state := by
  unfold UA_PubSubChannelMQTT_regist
  split
  · rfl
  · cases h : brokerSettingsOf transportSettings <;> simp [h]

/-- `unregist` returns the channel it was given, unchanged. -/
theorem unregist_preserves_channel (channel : UA_PubSubChannel)
    (transportSettings : Option UA_ExtensionObject)
    (unsubscribeResult : UA_StatusCode) :
    (UA_PubSubChannelMQTT_unregist channel transportSettings
      unsubscribeResult).2 = channel := by
  unfold UA_PubSubChannelMQTT_unregist
  split
  · rfl
  · cases h : brokerSettingsOf transportSettings <;> simp [h]

/-- Any operation stepped on an Error-state channel leaves the channel (when
it still exists) in the Error state. -/
theorem channelStep_error_stays (channel : UA_PubSubChannel) (op : ChannelOp)
    (herr : channel.state = UA_PubSubChannelState.error)
    (c2 : UA_PubSubChannel)
    (hstep : (channelStep channel op).2 = some c2) :
    c2.state = UA_PubSubChannelState.error := by
  cases op with
  | regist ts cb sr =>
    simp only [channelStep, Option.some.injEq] at hstep
    rw [← hstep, regist_preserves_state]
    exact herr
  | unregist ts ur =>
    simp only [channelStep, Option.some.injEq] at hstep
    rw [← hstep, unregist_preserves_channel]
    exact herr
  | send ts pr =>
    simp only [channelStep, Option.some.injEq] at hstep
    unfold UA_PubSubChannelMQTT_send at hstep
    rw [if_pos (by rw [herr]; decide)] at hstep
    rw [← hstep]
    exact herr
  | yield yr =>
    simp only [channelStep, Option.some.injEq] at hstep
    unfold UA_PubSubChannelMQTT_yield at hstep
    rw [if_pos herr] at hstep
    rw [← hstep]
    exact herr
  | close =>
    simp only [channelStep] at hstep
    unfold UA_PubSubChannelMQTT_close at hstep
    rw [if_neg (by rw [herr]; decide)] at hstep
    exact absurd hstep (by simp)

/-- Over any operation sequence, a channel that starts in the Error state is
still in the Error state whenever it still exists. -/
theorem runChannel_error_stays (ops : List ChannelOp) :
    ∀ channel : UA_PubSubChannel,
    channel.state = UA_PubSubChannelState.error →
    ∀ c2, runChannel channel ops = some c2 →
    c2.state = UA_PubSubChannelState.error := by
  induction ops with
  | nil =>
    intro channel herr c2 h
    unfold runChannel at h
    simp only [Option.some.injEq] at h
    rw [← h]
    exact herr
  | cons op rest ih =>
    intro channel herr c2 h
    unfold runChannel at h
    cases hstep : (channelStep channel op).2 with
    | none => rw [hstep] at h; exact absurd h (by simp)
    | some cmid =>
      rw [hstep] at h
      exact ih cmid (channelStep_error_stays channel op herr cmid hstep) c2 h

/-- A single step out of the Ready state reaches the Error state only through
a `send` whose settings pass the guard and whose publish fails, or a `yield`
whose pump fails. -/
theorem channelStep_rdy_to_error (channel : UA_PubSubChannel) (op : ChannelOp)
    (c2 : UA_PubSubChannel)
    (hrdy : channel.state = UA_PubSubChannelState.rdy)
    (hstep : (channelStep channel op).2 = some c2)
    (herr2 : c2.state = UA_PubSubChannelState.error) :
    reportsTransportFailure op := by
  cases op with
  | regist ts cb sr =>
    simp only [channelStep, Option.some.injEq] at hstep
    rw [← hstep, regist_preserves_state, hrdy] at herr2
    exact absurd herr2 (by decide)
  | unregist ts ur =>
    simp only [channelStep, Option.some.injEq] at hstep
    rw [← hstep, unregist_preserves_channel, hrdy] at herr2
    exact absurd herr2 (by decide)
  | send ts pr =>
    simp only [channelStep, Option.some.injEq] at hstep
    unfold UA_PubSubChannelMQTT_send at hstep
    rw [if_neg (by simp [hrdy])] at hstep
    cases hbs : brokerSettingsOf ts with
    | none =>
      rw [hbs] at hstep
      rw [← hstep, hrdy] at herr2
      exact absurd herr2 (by decide)
    | some b =>
      rw [hbs] at hstep
      by_cases hp : pr ≠ UA_STATUSCODE_GOOD
      · exact ⟨by simp [hbs], hp⟩
      · simp only [if_neg hp] at hstep
        rw [← hstep, hrdy] at herr2
        exact absurd herr2 (by decide)
  | yield yr =>
    simp only [channelStep, Option.some.injEq] at hstep
    unfold UA_PubSubChannelMQTT_yield at hstep
    rw [if_neg (by rw [hrdy]; decide)] at hstep
    by_cases hy : yr ≠ UA_STATUSCODE_GOOD
    · exact hy
    · simp only [if_neg hy] at hstep
      rw [← hstep, hrdy] at herr2
      exact absurd herr2 (by decide)
  | close =>
    simp only [channelStep] at hstep
    unfold UA_PubSubChannelMQTT_close at hstep
    rw [if_neg (by rw [hrdy]; decide)] at hstep
    exact absurd hstep (by simp)

/-- C7.  A channel leaves the Ready state for the Error state only when `send`
or `yield` reports a transport-level failure, and once in the Error state no
sequence of channel operations ever returns it to the Ready state. -/
theorem channel_error_sticky (channel : UA_PubSubChannel) :
    (∀ (op : ChannelOp) (c2 : UA_PubSubChannel),
      channel.state = UA_PubSubChannelState.rdy →
      (channelStep channel op).2 = some c2 →
      c2.state = UA_PubSubChannelState.error →
      reportsTransportFailure op) ∧
    (∀ (ops : List ChannelOp) (c2 : UA_PubSubChannel),
      channel.state = UA_PubSubChannelState.error →
      runChannel channel ops = some c2 →
      c2.state ≠ UA_PubSubChannelState.rdy) := by
  constructor
  · intro op c2 hrdy hstep herr2
    exact channelStep_rdy_to_error channel op c2 hrdy hstep herr2
  · intro ops c2 herr hrun
    rw [runChannel_error_stays ops channel herr c2 hrun]
    decide

theorem channel_error_sticky_witness :
    reportsTransportFailure (ChannelOp.send (some sampleTransportSettings)
      UA_STATUSCODE_BADINTERNALERROR) ∧
    errorChannel.state ≠ UA_PubSubChannelState.rdy :=
  ⟨(channel_error_sticky readyChannel).1
      (ChannelOp.send (some sampleTransportSettings)
        UA_STATUSCODE_BADINTERNALERROR)
      errorChannel (by decide) (by decide) (by decide),
    (channel_error_sticky errorChannel).2 [ChannelOp.yield UA_STATUSCODE_GOOD]
      errorChannel (by decide) (by decide)⟩

/-- C6.  Whenever the `connectMqtt` step of `open` fails, `open` returns no
channel object, and no resource remains allocated: in particular both message
buffers allocated just before the connect attempt are released (as are the
channel data, the channel object and the partially-established transport
connection).  The earlier failure exits likewise leave the heap empty, so the
conclusion needs no assumption on the allocation outcomes. -/
theorem open_connect_failure_releases_everything
    (connectionConfig : UA_PubSubConnectionConfig) (env : OpenEnv)
    (hfail : env.connectResult ≠ UA_STATUSCODE_GOOD) :
    (UA_PubSubChannelMQTT_open connectionConfig env).channel = none ∧
    (UA_PubSubChannelMQTT_open connectionConfig env).heap = Heap.empty := by
  unfold UA_PubSubChannelMQTT_open
  cases hc : connectionConfig.address with
  | networkAddressUrl url =>
    simp only []
    split_ifs <;> simp_all [disconnectMqtt_effect, Heap.empty]
  | uint32 v => exact ⟨rfl, rfl⟩
  | str s => exact ⟨rfl, rfl⟩
  | otherType => exact ⟨rfl, rfl⟩

theorem open_connect_failure_releases_everything_witness :
    (UA_PubSubChannelMQTT_open sampleConfig envConnectFails).channel = none ∧
    (UA_PubSubChannelMQTT_open sampleConfig envConnectFails).heap =
      Heap.empty :=
  open_connect_failure_releases_everything sampleConfig envConnectFails
    (by decide)

/-- A property whose key is not `"sendBufferSize"` leaves the send-buffer size
unchanged. -/
theorem applyConnectionProperty_sendSize (d : UA_PubSubChannelDataMQTT)
    (p : UA_KeyValuePair) (h : p.key ≠ "sendBufferSize") :
    (applyConnectionProperty d p).mqttSendBufferSize =
      d.mqttSendBufferSize := by
  unfold applyConnectionProperty
  rw [if_neg h]
  by_cases h2 : p.key = "recvBufferSize"
  · rw [if_pos h2]; cases p.value <;> rfl
  · rw [if_neg h2]
    by_cases h3 : p.key = "mqttClientId"
    · rw [if_pos h3]; cases p.value <;> rfl
    · rw [if_neg h3]

/-- A property whose key is not `"recvBufferSize"` leaves the receive-buffer
size unchanged. -/
theorem applyConnectionProperty_recvSize (d : UA_PubSubChannelDataMQTT)
    (p : UA_KeyValuePair) (h : p.key ≠ "recvBufferSize") :
    (applyConnectionProperty d p).mqttRecvBufferSize =
      d.mqttRecvBufferSize := by
  unfold applyConnectionProperty
  by_cases h1 : p.key = "sendBufferSize"
  · rw [if_pos h1]; cases p.value <;> rfl
  · rw [if_neg h1, if_neg h]
    by_cases h3 : p.key = "mqttClientId"
    · rw [if_pos h3]; cases p.value <;> rfl
    · rw [if_neg h3]

/-- A property whose key is not `"mqttClientId"` leaves the client identifier
unchanged. -/
theorem applyConnectionProperty_clientId (d : UA_PubSubChannelDataMQTT)
    (p : UA_KeyValuePair) (h : p.key ≠ "mqttClientId") :
    (applyConnectionProperty d p).mqttClientId = d.mqttClientId := by
  unfold applyConnectionProperty
  by_cases h1 : p.key = "sendBufferSize"
  · rw [if_pos h1]; cases p.value <;> rfl
  · rw [if_neg h1]
    by_cases h2 : p.key = "recvBufferSize"
    · rw [if_pos h2]; cases p.value <;> rfl
    · rw [if_neg h2, if_neg h]

/-- The whole property loop leaves the send-buffer size at its starting value
when no property names it. -/
theorem foldl_apply_sendSize (props : List UA_KeyValuePair) :
    ∀ d : UA_PubSubChannelDataMQTT,
    (∀ p ∈ props, p.key ≠ "sendBufferSize") →
    (props.foldl applyConnectionProperty d).mqttSendBufferSize =
      d.mqttSendBufferSize := by
  induction props with
  | nil => intro d _; rfl
  | cons p rest ih =>
    intro d h
    rw [List.foldl_cons, ih _ (fun q hq => h q (List.mem_cons_of_mem _ hq)),
      applyConnectionProperty_sendSize d p (h p (List.mem_cons_self _ _))]

/-- The whole property loop leaves the receive-buffer size at its starting
value when no property names it. -/
theorem foldl_apply_recvSize (props : List UA_KeyValuePair) :
    ∀ d : UA_PubSubChannelDataMQTT,
    (∀ p ∈ props, p.key ≠ "recvBufferSize") →
    (props.foldl applyConnectionProperty d).mqttRecvBufferSize =
      d.mqttRecvBufferSize := by
  induction props with
  | nil => intro d _; rfl
  | cons p rest ih =>
    intro d h
    rw [List.foldl_cons, ih _ (fun q hq => h q (List.mem_cons_of_mem _ hq)),
      applyConnectionProperty_recvSize d p (h p (List.mem_cons_self _ _))]

/-- The whole property loop leaves the client identifier at its starting value
when no property names it. -/
theorem foldl_apply_clientId (props : List UA_KeyValuePair) :
    ∀ d : UA_PubSubChannelDataMQTT,
    (∀ p ∈ props, p.key ≠ "mqttClientId") →
    (props.foldl applyConnectionProperty d).mqttClientId =
      d.mqttClientId := by
  induction props with
  | nil => intro d _; rfl
  | cons p rest ih =>
    intro d h
    rw [List.foldl_cons, ih _ (fun q hq => h q (List.mem_cons_of_mem _ hq)),
      applyConnectionProperty_clientId d p (h p (List.mem_cons_self _ _))]

/-- A channel `open` returns successfully carries exactly the sizes and client
identifier the property loop resolved from the defaults. -/
theorem open_success_handle (connectionConfig : UA_PubSubConnectionConfig)
    (env : OpenEnv) (c : UA_PubSubChannel)
    (hsome : (UA_PubSubChannelMQTT_open connectionConfig env).channel =
      some c) :
    ∃ url, connectionConfig.address = UAVariant.networkAddressUrl url ∧
      c.handle.mqttSendBufferSize =
        (connectionConfig.connectionProperties.foldl applyConnectionProperty
          (mqttDefaults url)).mqttSendBufferSize ∧
      c.handle.mqttRecvBufferSize =
        (connectionConfig.connectionProperties.foldl applyConnectionProperty
          (mqttDefaults url)).mqttRecvBufferSize ∧
      c.handle.mqttClientId =
        (connectionConfig.connectionProperties.foldl applyConnectionProperty
          (mqttDefaults url)).mqttClientId := by
  unfold UA_PubSubChannelMQTT_open at hsome
  cases hc : connectionConfig.address with
  | networkAddressUrl url =>
    rw [hc] at hsome
    refine ⟨url, rfl, ?_⟩
    simp only [] at hsome
    split_ifs at hsome <;>
      first
        | exact Option.noConfusion
            (hsome : (none : Option UA_PubSubChannel) = some c)
        | (rw [← Option.some.inj hsome]
           exact ⟨rfl, rfl, rfl⟩)
  | uint32 v => rw [hc] at hsome; exact absurd hsome (by simp)
  | str s => rw [hc] at hsome; exact absurd hsome (by simp)
  | otherType => rw [hc] at hsome; exact absurd hsome (by simp)

/-- C4 counterexample.  `open` on a configuration whose property list omits
every parameter applies the default client identifier `"open62541_pub"` — not
`"generic_pub"` as the claim states (plugin line 63:
`UA_String mqttClientId = UA_STRING("open62541_pub");`). -/
theorem open_default_client_id_not_generic :
    ((UA_PubSubChannelMQTT_open sampleConfig envAllGood).channel.map
        (fun c => c.handle.mqttClientId)) = some "open62541_pub" ∧
    "open62541_pub" ≠ "generic_pub" :=
  ⟨by decide, by decide⟩

/-- C4 (amended).  Whenever `open` returns a channel: if the property list
carries no `sendBufferSize` entry the send-buffer size is the default 2000;
if it carries no `recvBufferSize` entry the receive-buffer size is the default
2000; and if it carries no `mqttClientId` entry the client identifier is the
default `"open62541_pub"` (not `"generic_pub"`). -/
theorem open_applies_defaults (connectionConfig : UA_PubSubConnectionConfig)
    (env : OpenEnv) (c : UA_PubSubChannel)
    (hsome : (UA_PubSubChannelMQTT_open connectionConfig env).channel =
      some c) :
    ((∀ p ∈ connectionConfig.connectionProperties,
        p.key ≠ "sendBufferSize") → c.handle.mqttSendBufferSize = 2000) ∧
    ((∀ p ∈ connectionConfig.connectionProperties,
        p.key ≠ "recvBufferSize") → c.handle.mqttRecvBufferSize = 2000) ∧
    ((∀ p ∈ connectionConfig.connectionProperties,
        p.key ≠ "mqttClientId") →
      c.handle.mqttClientId = "open62541_pub") := by
  obtain ⟨url, _, hs, hr, hcid⟩ :=
    open_success_handle connectionConfig env c hsome
  refine ⟨fun hp => ?_, fun hp => ?_, fun hp => ?_⟩
  · rw [hs, foldl_apply_sendSize _ _ hp]; rfl
  · rw [hr, foldl_apply_recvSize _ _ hp]; rfl
  · rw [hcid, foldl_apply_clientId _ _ hp]; rfl

theorem open_applies_defaults_witness :
    ((UA_PubSubChannelMQTT_open sampleConfig envAllGood).channel =
        some readyChannel) ∧
    readyChannel.handle.mqttSendBufferSize = 2000 ∧
    readyChannel.handle.mqttRecvBufferSize = 2000 ∧
    readyChannel.handle.mqttClientId = "open62541_pub" :=
  ⟨by decide,
    (open_applies_defaults sampleConfig envAllGood readyChannel (by decide)).1
      (by simp [sampleConfig]),
    (open_applies_defaults sampleConfig envAllGood readyChannel
      (by decide)).2.1 (by simp [sampleConfig]),
    (open_applies_defaults sampleConfig envAllGood readyChannel
      (by decide)).2.2 (by simp [sampleConfig])⟩

/-- `assocLookup` finds nothing for a key filtered out of the table. -/
theorem assocLookup_filter_ne (l : List (Nat × Nat)) (n : Nat) :
    assocLookup (l.filter fun p => p.1 ≠ n) n = none := by
  induction l with
  | nil => rfl
  | cons p rest ih =>
    obtain ⟨k2, v⟩ := p
    rw [List.filter_cons]
    by_cases hp : k2 = n
    · rw [if_neg (by simp [hp])]
      exact ih
    · rw [if_pos (by simp [hp])]
      unfold assocLookup
      rw [if_neg hp]
      exact ih

def sampleSwitchWorld : SwitchWorld :=
  { switch := { defaultStore := 7, linkedStores := [(1, 42)] },
    stores := [(42, ["TestNode1", "TestNode2", "TestNode3"]), (7, [])] }

/-- C8.  For a namespace with a linked backend, relinking it to `none` and
then resolving the namespace yields the default backend, and the previously
linked backend is untouched: the backend heap is unchanged and iterating the
backend still visits exactly the nodes it held — relinking or unlinking never
destroys the previous backend. -/
theorem setNodestore_none_restores_default (w : SwitchWorld) (n h0 : Nat)
    (_hlink : assocLookup w.switch.linkedStores n = some h0) :
    UA_Nodestore_Switch_getNodestore (worldSetNodestore w n none).switch n =
      w.switch.defaultStore ∧
    (worldSetNodestore w n none).stores = w.stores ∧
    iterateNodes (worldSetNodestore w n none) h0 = iterateNodes w h0 := by
  refine ⟨?_, rfl, rfl⟩
  show (assocLookup (w.switch.linkedStores.filter fun p => p.1 ≠ n) n).getD
      w.switch.defaultStore = w.switch.defaultStore
  rw [assocLookup_filter_ne]
  rfl

theorem setNodestore_none_restores_default_witness :
    assocLookup sampleSwitchWorld.switch.linkedStores 1 = some 42 ∧
    (UA_Nodestore_Switch_getNodestore
        (worldSetNodestore sampleSwitchWorld 1 none).switch 1 =
      sampleSwitchWorld.switch.defaultStore ∧
    (worldSetNodestore sampleSwitchWorld 1 none).stores =
      sampleSwitchWorld.stores ∧
    iterateNodes (worldSetNodestore sampleSwitchWorld 1 none) 42 =
      iterateNodes sampleSwitchWorld 42) :=
  ⟨by decide,
    setNodestore_none_restores_default sampleSwitchWorld 1 42 (by decide)⟩
